import Mathlib

/-!
Shallow embedding of the movies API core (Go) for specification checking.

The embedding follows the Go source files:
  internal/validator      — `Validator`, `Check`, `AddError`, `In`, `Unique`, …
  internal/data/filters   — `Filter`, `ValidateFilters`, `sortColumn`
  internal/data/movies    — `Movie`, `MovieModel.Get/Update`
  internal/data/users     — `User`, `AnonymousUser`, `IsAnonymous`,
                            `UserModel.Update`, `UserModel.GetByToken`
  cmd/api/middleware      — `Authenticate`, `RequireActivatedUser`,
                            `RequirePermission`
  cmd/api/handlers        — `updateMovieHandler`, `activateUserHandler`
  cmd/api/helpers         — `application.background`

Database tables are embedded as Lean lists of rows; each SQL statement used
by the code becomes an explicit list transformation with the same row
selection condition.  `crypto/sha256` and the token-plaintext shape check
are abstracted as function parameters.  Go `panic` becomes an explicit
crash constructor / `Option` so that reachability of panics is provable.
-/

namespace MoviesAPI

/-! ### internal/validator -/

/-- The `Validator` struct: `Errors map[string]string`.  Embedded as an
insertion-ordered association list; `AddError` only inserts a key that is
not already present, exactly as the Go map-guarded insert does. -/
structure Validator where
  errors : List (String × String)
deriving Repr, DecidableEq

/-- `validator.New()` -/
def Validator.new : Validator := ⟨[]⟩

/-- `(v *Validator) Valid() bool { return len(v.Errors) == 0 }` -/
def Validator.valid (v : Validator) : Bool := v.errors.isEmpty

/-- `(v *Validator) AddError(key, message)`: insert only if the key is absent. -/
def Validator.addError (v : Validator) (key message : String) : Validator :=
  if v.errors.any (fun p => p.1 == key) then v
  else ⟨v.errors ++ [(key, message)]⟩

/-- `(v *Validator) Check(ok, key, message)` -/
def Validator.check (v : Validator) (ok : Bool) (key message : String) : Validator :=
  if ok then v else v.addError key message

/-- `validator.In[T comparable](value, list...)` at `T = string`. -/
def In (value : String) (list : List String) : Bool :=
  list.any (fun item => item == value)

/-- `validator.Unique[T comparable](values)`: `len(values) == len(uniqueValues)`
where `uniqueValues` is the set of distinct members. -/
def Unique (values : List String) : Bool :=
  values.eraseDups.length == values.length

/-! ### internal/data (filters) -/

/-- The `Filter` struct (`Sort` is a Lean keyword, so that field is `sort`). -/
structure Filter where
  Page : Int
  PageSize : Int
  sort : String
  SortSafeList : List String
deriving Repr

/-- `ValidateFilters(v, filter)`: the three `v.Check` calls, in source order
(note the source reuses the `"page_size"` key for the sort check). -/
def ValidateFilters (v : Validator) (filter : Filter) : Validator :=
  let v1 := v.check (decide (filter.Page ≥ 1) && decide (filter.PageSize ≤ 10000000))
    "page" "page must be between 1 and 10000000"
  let v2 := v1.check (decide (filter.PageSize ≥ 1) && decide (filter.PageSize ≤ 100))
    "page_size" "page size must be between 1 and 100"
  v2.check (In filter.sort filter.SortSafeList) "page_size" "invalid sort value"

/-- `strings.TrimPrefix(s, "-")`. -/
def trimDash (s : String) : String :=
  if s.startsWith "-" then s.drop 1 else s

/-- The loop body of `Filter.sortColumn`: scan the safe list; falling off the
end is the `panic("unsafe sort parameter: ...")` branch, embedded as `none`. -/
def sortColumnAux (sort : String) : List String → Option String
  | [] => none
  | safeValue :: rest =>
    if sort == safeValue then some (trimDash sort) else sortColumnAux sort rest

/-- `(f Filter) sortColumn() string` — `none` is the panic branch. -/
def Filter.sortColumn (f : Filter) : Option String :=
  sortColumnAux f.sort f.SortSafeList

/-! Helper lemmas about the validator. -/

/-- `check` produces an empty error map iff the input map was empty and the
check passed. -/
theorem check_errors_nil (v : Validator) (ok : Bool) (key message : String) :
    (v.check ok key message).errors = [] ↔ v.errors = [] ∧ ok = true := by
  cases ok with
  | true => simp [Validator.check]
  | false =>
    simp only [Validator.check, Bool.false_eq_true, if_false, and_false, iff_false]
    unfold Validator.addError
    by_cases hmem : v.errors.any (fun p => p.1 == key) = true
    · rw [if_pos hmem]
      intro hnil
      rw [hnil] at hmem
      simp at hmem
    · rw [if_neg hmem]
      simp

/-- If the sort value is a member of the safe list, the scan finds it and the
panic branch is not reached. -/
theorem sortColumnAux_of_mem (sort : String) (list : List String)
    (h : In sort list = true) :
    sortColumnAux sort list = some (trimDash sort) := by
  induction list with
  | nil => simp [In] at h
  | cons a rest ih =>
    unfold sortColumnAux
    by_cases hab : (sort == a) = true
    · simp [hab]
    · rw [if_neg hab]
      apply ih
      simp only [In, List.any_cons, Bool.or_eq_true] at h
      rcases h with h | h
      · have haeq : a = sort := by simpa using h
        subst haeq
        simp at hab
      · exact h

/-! ### internal/data: model errors

`models.go` declares `ErrNoRecordFound` and `ErrEditConflict`;
`users.go` declares `ErrDuplicateEmail`.  All are plain error values. -/

inductive ModelError where
  | noRecordFound
  | editConflict
  | duplicateEmail
deriving Repr, DecidableEq

/-! ### internal/data/movies -/

/-- The `Movie` struct (`CreatedAt` kept as an abstract instant). -/
structure Movie where
  ID : Int
  Title : String
  Year : Int
  Runtime : Int
  Genres : List String
  CreatedAt : Int
  Version : Int
deriving Repr, DecidableEq

/-- `ValidateMovie(v, movie)` — the source compares `movie.Year` against
`time.Now().Year()`, passed here as `nowYear`.  `len(movie.Title)` is the
Go byte length. -/
def ValidateMovie (v : Validator) (nowYear : Int) (movie : Movie) : Validator :=
  let v1 := v.check (movie.Title != "") "title" "title must be provided"
  let v2 := v1.check (decide (movie.Title.utf8ByteSize ≤ 500))
    "title" "title should be less than or equal to 500 characters long"
  let v3 := v2.check (movie.Year != 0) "year" "year must be provided"
  let v4 := v3.check (decide (movie.Year ≥ 1888) && decide (movie.Year ≤ nowYear))
    "year" "year must be between 1888 and the current year"
  let v5 := v4.check (decide (movie.Runtime > 0))
    "runtime" "runtime must be provided and a positive integer"
  -- `movie.Genres != nil` — a `[]string` read back from the store is non-nil,
  -- and the handler only overwrites it with a non-nil slice, so this check is
  -- embedded as always passing (the list value itself carries no nil tag).
  let v6 := v5.check true "genres" "genres must be provided"
  let v7 := v6.check (decide (movie.Genres.length ≥ 1) && decide (movie.Genres.length ≤ 5))
    "genres" "genres most contain at least 1 and no more than 5 items"
  v7.check (Unique movie.Genres) "genres" "genres must contain unique items"

/-- The movies table: one row per `Movie`; `ID` is the primary key. -/
def MovieDB := List Movie

/-- Row selector of the conditional update:
`WHERE id = $5 AND version = $6`. -/
def movieRowMatches (m : Movie) (r : Movie) : Bool :=
  r.ID == m.ID && r.Version == m.Version

/-- The `SET` clause of `MovieModel.Update` applied to a matched row:
`title, year, runtime, genres` from the argument, `version = version + 1`. -/
def movieRowSet (m : Movie) (r : Movie) : Movie :=
  { r with Title := m.Title, Year := m.Year, Runtime := m.Runtime,
           Genres := m.Genres, Version := r.Version + 1 }

/-- `MovieModel.Get(id)`: `id < 1` and the empty result both yield
`ErrNoRecordFound`; `QueryRow` returns the first matching row. -/
def MovieModel.Get (db : List Movie) (id : Int) : Except ModelError Movie :=
  if id < 1 then .error .noRecordFound
  else
    match db.find? (fun r => r.ID == id) with
    | none => .error .noRecordFound
    | some m => .ok m

/-- `MovieModel.Update(movie)`:
`UPDATE movies SET … version = version + 1 WHERE id = $5 AND version = $6
RETURNING version`.  Zero affected rows is `sql.ErrNoRows` on the `RETURNING`
scan, mapped to `ErrEditConflict`; on success the returned `version` is
scanned back into `movie.Version` and handed to the caller. -/
def MovieModel.Update (db : List Movie) (movie : Movie) :
    Except ModelError (List Movie × Int) :=
  if db.countP (fun r => movieRowMatches movie r) = 0 then
    .error .editConflict
  else
    .ok (db.map (fun r => if movieRowMatches movie r then movieRowSet movie r else r),
         movie.Version + 1)

/-! ### internal/data/users -/

/-- The `User` struct; the bcrypt `password.hash` bytes are opaque data. -/
structure User where
  ID : Int
  Name : String
  Email : String
  PasswordHash : List Nat
  Activated : Bool
  Version : Int
  CreatedAt : Int
deriving Repr, DecidableEq

/-- The zero `User` value (`&User{}`). -/
def zeroUser : User := ⟨0, "", "", [], false, 0, 0⟩

/-- A Go `*data.User`: a heap address paired with the pointee.  Pointer
equality in Go is address equality. -/
structure UserPtr where
  addr : Nat
  val : User
deriving Repr, DecidableEq

/-- `var AnonymousUser = &User{}` — the single shared sentinel allocation,
pinned at address `0`; every later allocation gets a fresh address `≥ 1`. -/
def AnonymousUser : UserPtr := ⟨0, zeroUser⟩

/-- `(u *User) IsAnonymous() bool { return u == AnonymousUser }` — pointer
comparison against the sentinel. -/
def User.IsAnonymous (u : UserPtr) : Bool :=
  u.addr == AnonymousUser.addr

/-- `&user` for a freshly scanned record: allocate at the next free heap
address (the sentinel owns address `0`; a live allocator never returns it). -/
def allocUser (nextAddr : Nat) (u : User) : UserPtr × Nat :=
  (⟨nextAddr, u⟩, nextAddr + 1)

/-- Row selector of the users conditional update: `WHERE id = $5 AND version = $6`. -/
def userRowMatches (u : User) (r : User) : Bool :=
  r.ID == u.ID && r.Version == u.Version

/-- `SET name, email, password_hash, activated, version = version + 1`. -/
def userRowSet (u : User) (r : User) : User :=
  { r with Name := u.Name, Email := u.Email, PasswordHash := u.PasswordHash,
           Activated := u.Activated, Version := r.Version + 1 }

/-- `UserModel.Update(user)`: the same conditional-update shape as the movie
model, plus the `users_email_key` unique-constraint branch mapped to
`ErrDuplicateEmail` (the constraint can only fire once a row matched). -/
def UserModel.Update (db : List User) (user : User) :
    Except ModelError (List User × Int) :=
  if db.countP (fun r => userRowMatches user r) = 0 then
    .error .editConflict
  else if db.any (fun r => r.ID != user.ID && r.Email == user.Email) then
    .error .duplicateEmail
  else
    .ok (db.map (fun r => if userRowMatches user r then userRowSet user r else r),
         user.Version + 1)

/-! ### internal/data/tokens -/

/-- Modelled from the spec: the token scope tags `"activation" | "authentication"`
(`tokens.go`, which declares `ScopeActivation`/`ScopeAuthentication`, is not in
`src/`; the spec fixes the two tag values). -/
def ScopeActivation : String := "activation"

/-- Modelled from the spec: the authentication scope tag (see `ScopeActivation`). -/
def ScopeAuth : String := "authentication"

/-- A row of the tokens table: `{hash, user_id, scope, expiry}`.  The digest
is the raw SHA-256 byte string, kept as opaque data. -/
structure Token where
  hash : List Nat
  userID : Int
  scope : String
  expiry : Int
deriving Repr, DecidableEq

/-- The joined persistent state `users × tokens` that `GetByToken` and the
activation handler read and write. -/
structure DataDB where
  users : List User
  tokens : List Token
deriving Repr, DecidableEq

/-- Row selector of the `GetByToken` query:
`tokens.hash = $1 AND tokens.scope = $2 AND tokens.expiry > $3`. -/
def tokenRowMatches (tokenHash : List Nat) (scope : String) (now : Int)
    (t : Token) : Bool :=
  t.hash == tokenHash && t.scope == scope && decide (now < t.expiry)

/-- The result set of the `GetByToken` query: recompute
`sha256.Sum256(token)` (passed in as the function `sha256`), join
`users INNER JOIN tokens ON users.id = tokens.user_id` restricted by
`tokenRowMatches`. -/
def getByTokenRows (sha256 : String → List Nat) (now : Int)
    (db : DataDB) (scope token : String) : List User :=
  (db.tokens.filter (tokenRowMatches (sha256 token) scope now)).flatMap
    (fun t => db.users.filter (fun u => u.ID == t.userID))

/-- `UserModel.GetByToken(scope, token)` proper: scan the first joined row;
an empty result is `sql.ErrNoRows`, mapped to `ErrNoRecordFound`. -/
def UserModel.GetByToken (sha256 : String → List Nat) (now : Int)
    (db : DataDB) (scope token : String) : Except ModelError User :=
  match getByTokenRows sha256 now db scope token with
  | [] => .error .noRecordFound
  | u :: _ => .ok u

/-- Modelled from the spec: `revokeAllForIdentity(scope, identity-id)` "deletes
every token of that scope owned by the identity" (`TokenModel.DeleteAllForUser`
in `tokens.go`, which is not in `src/`). -/
def TokenModel.DeleteAllForUser (tokens : List Token) (scope : String)
    (userID : Int) : List Token :=
  tokens.filter (fun t => !(t.scope == scope && t.userID == userID))

/-! ### internal/data/permissions -/

/-- Modelled from the spec: the permission-grants table is a set of
`(identity-id, permission-code)` pairs (`permissions.go` is not in `src/`). -/
def PermDB := List (Int × String)

/-- Modelled from the spec: `allGrants(identity-id) -> set<string>` —
`PermissionModel.GetAllForUser` selects the codes granted to the identity. -/
def PermissionModel.GetAllForUser (pdb : List (Int × String)) (userID : Int) :
    List String :=
  (pdb.filter (fun g => g.1 == userID)).map (fun g => g.2)

/-- Modelled from the spec: `includes(grants, code)` — pure set membership
(`Permissions.Include` in `permissions.go`, which is not in `src/`). -/
def Permissions.Include (grants : List String) (code : String) : Bool :=
  grants.any (fun g => g == code)

/-! ### cmd/api/middleware -/

/-- The outcome a middleware hands to echo: either an `echo.NewHTTPError`
with the given status, or the wrapped handler's own completed response. -/
inductive MWResult where
  | httpError (status : Int)
  | handled (status : Int)
deriving Repr, DecidableEq

/-- An observable call into the persistent store made while a request is
being authorized; used to state when the permission store is queried. -/
inductive StoreQuery where
  | permLookup (userID : Int)
deriving Repr, DecidableEq

/-- `RequireActivatedUser(next)`: reads the context user; anonymous → 401,
not activated → 403, otherwise run `next`.  Results are paired with the list
of store queries the continuation performs. -/
def RequireActivatedUser (user : UserPtr)
    (next : Unit → MWResult × List StoreQuery) : MWResult × List StoreQuery :=
  if User.IsAnonymous user then
    (.httpError 401, [])
  else if !user.val.Activated then
    (.httpError 403, [])
  else
    next ()

/-- `RequirePermission(permission)`: the inner `fn` loads
`Permissions.GetAllForUser(user.ID)` (recorded as a `StoreQuery`) and rejects
with 403 when the code is absent; the whole `fn` is wrapped in
`app.RequireActivatedUser(fn)`. -/
def RequirePermission (pdb : List (Int × String)) (permission : String)
    (user : UserPtr) (next : Unit → MWResult × List StoreQuery) :
    MWResult × List StoreQuery :=
  RequireActivatedUser user (fun _ =>
    let permissions := PermissionModel.GetAllForUser pdb user.val.ID
    if !(Permissions.Include permissions permission) then
      (.httpError 403, [.permLookup user.val.ID])
    else
      let r := next ()
      (r.1, .permLookup user.val.ID :: r.2))

/-- `strings.Split` for a single-character separator: split around every
occurrence of `sep`, preserving empty parts (Go semantics). -/
def splitChar (sep : Char) : List Char → List (List Char)
  | [] => [[]]
  | c :: rest =>
    let r := splitChar sep rest
    if c == sep then [] :: r
    else
      match r with
      | [] => [[c]]
      | p :: ps => (c :: p) :: ps

/-- `strings.Split(s, " ")` as used by `Authenticate`. -/
def splitOnSpace (s : String) : List String :=
  (splitChar ' ' s.toList).map (fun cs => String.mk cs)

/-- What the `Authenticate` middleware leaves behind: an early error response
(status, and whether `WWW-Authenticate: Bearer` was set) or the context user
it attached before calling `next`. -/
structure AuthOutcome where
  status : Option Int
  wwwAuthenticate : Bool
  ctxUser : Option UserPtr
deriving Repr, DecidableEq

/-- `app.Authenticate()`: empty header → attach `AnonymousUser` and continue;
a header that does not split (on single spaces, Go `strings.Split`) into
exactly `["Bearer", token]` → 401 + challenge header; token failing
`data.ValidateTokenPlainText` (source not in `src/`, abstracted as the
predicate `shapeOk`) → 401 + challenge; `GetByToken(ScopeAuth, token)`
returning `ErrNoRecordFound` → 401 + challenge; other store error → plain
error (500 via the generic error handler); success → attach `&user` (a fresh
allocation) and continue. -/
def Authenticate (sha256 : String → List Nat) (now : Int) (db : DataDB)
    (shapeOk : String → Bool) (nextAddr : Nat) (authHeader : String) :
    AuthOutcome :=
  if authHeader == "" then
    ⟨none, false, some AnonymousUser⟩
  else if !((splitOnSpace authHeader).length == 2 &&
      (splitOnSpace authHeader).headD "" == "Bearer") then
    ⟨some 401, true, none⟩
  else if !shapeOk ((splitOnSpace authHeader).getD 1 "") then
    ⟨some 401, true, none⟩
  else
    match UserModel.GetByToken sha256 now db ScopeAuth
        ((splitOnSpace authHeader).getD 1 "") with
    | .error .noRecordFound => ⟨some 401, true, none⟩
    | .error _ => ⟨some 500, false, none⟩
    | .ok user => ⟨none, false, some (allocUser nextAddr user).1⟩

/-- The route composition for a permission-gated endpoint:
`e.Use(app.Authenticate())` runs before the route's `RequirePermission`
middleware, which receives exactly the context user `Authenticate` attached. -/
def servePermissionGated (sha256 : String → List Nat) (now : Int) (db : DataDB)
    (shapeOk : String → Bool) (pdb : List (Int × String)) (permission : String)
    (nextAddr : Nat) (authHeader : String)
    (next : Unit → MWResult × List StoreQuery) : MWResult × List StoreQuery :=
  let a := Authenticate sha256 now db shapeOk nextAddr authHeader
  match a.ctxUser with
  | some u => RequirePermission pdb permission u next
  | none =>
    match a.status with
    | some s => (.httpError s, [])
    | none => (.httpError 500, [])

/-! ### cmd/api/handlers -/

/-- The decoded `PATCH /v1/movies/:id` body: every field is a pointer (or a
nilable slice), `none` meaning absent-or-null JSON. -/
structure MovieInput where
  Title : Option String
  Year : Option Int
  Runtime : Option Int
  Genres : Option (List String)
deriving Repr, DecidableEq

/-- The four `if input.X != nil { movie.X = *input.X }` statements of
`updateMovieHandler`. -/
def applyMoviePatch (input : MovieInput) (movie : Movie) : Movie :=
  let m1 := match input.Title with
    | some t => { movie with Title := t }
    | none => movie
  let m2 := match input.Year with
    | some y => { m1 with Year := y }
    | none => m1
  let m3 := match input.Runtime with
    | some r => { m2 with Runtime := r }
    | none => m2
  match input.Genres with
  | some g => { m3 with Genres := g }
  | none => m3

/-- A handler's outcome: the HTTP status, the movie serialized into the JSON
response (when any), and the movies table after the request. -/
structure MovieHandlerResult where
  status : Int
  movie : Option Movie
  db : List Movie
deriving Repr, DecidableEq

/-- `updateMovieHandler`: read the current movie, patch it with the supplied
fields, validate, and run the conditional update; `ErrEditConflict` maps to
HTTP 409, success to 201 with the updated movie (its `Version` scanned from
`RETURNING version`).  The read and the update are separate store calls, so
they are given separate snapshots `dbRead`/`dbWrite` of the movies table —
concurrent edits land in `dbWrite`. -/
def updateMovieHandler (nowYear : Int) (dbRead dbWrite : List Movie) (id : Int)
    (input : MovieInput) : MovieHandlerResult :=
  match MovieModel.Get dbRead id with
  | .error .noRecordFound => ⟨404, none, dbWrite⟩
  | .error _ => ⟨500, none, dbWrite⟩
  | .ok movie =>
    if !(ValidateMovie Validator.new nowYear (applyMoviePatch input movie)).valid then
      ⟨422, none, dbWrite⟩
    else
      match MovieModel.Update dbWrite (applyMoviePatch input movie) with
      | .error .editConflict => ⟨409, none, dbWrite⟩
      | .error _ => ⟨500, none, dbWrite⟩
      | .ok (db', ver) =>
        ⟨201, some { applyMoviePatch input movie with Version := ver }, db'⟩

/-- An activation request's outcome: HTTP status and the users/tokens state
after the request. -/
structure ActivateResult where
  status : Int
  db : DataDB
deriving Repr, DecidableEq

/-- `activateUserHandler`: validate the plaintext shape, look the user up via
the activation-scope token, set `Activated = true`, run the conditional
`UserModel.Update` (`ErrEditConflict` → 409), then
`Tokens.DeleteAllForUser(ScopeActivation, user.ID)` and 200.  As with the
movie update, the token lookup reads snapshot `dbRead` while the update and
the delete act on `dbWrite`. -/
def activateUserHandler (sha256 : String → List Nat) (now : Int)
    (shapeOk : String → Bool) (dbRead dbWrite : DataDB) (token : String) :
    ActivateResult :=
  if !shapeOk token then ⟨422, dbWrite⟩
  else
    match UserModel.GetByToken sha256 now dbRead ScopeActivation token with
    | .error .noRecordFound => ⟨422, dbWrite⟩
    | .error _ => ⟨500, dbWrite⟩
    | .ok user =>
      match UserModel.Update dbWrite.users { user with Activated := true } with
      | .error .editConflict => ⟨409, dbWrite⟩
      | .error _ => ⟨500, dbWrite⟩
      | .ok (users', _) =>
        ⟨200, ⟨users',
          TokenModel.DeleteAllForUser dbWrite.tokens ScopeActivation user.ID⟩⟩

/-! ### cmd/api/helpers: `application.background` -/

/-- A Go panic payload, split by what `err.(string)` can handle: a string, or
anything else (a `runtime.Error`, an `error` value, an int, …). -/
inductive PanicVal where
  | str (s : String)
  | nonStr
deriving Repr, DecidableEq

/-- How the submitted closure `fn` terminates. -/
inductive TaskResult where
  | normal
  | panicked (v : PanicVal)
deriving Repr, DecidableEq

/-- What becomes of the goroutine `app.background(fn)` spawns. -/
inductive BackgroundOutcome where
  /-- The goroutine ran to completion; `logged` is what reached
  `app.logger.Error`. -/
  | completed (logged : List String)
  /-- An unrecovered panic escaped the goroutine, terminating the whole
  process. -/
  | processCrash
deriving Repr, DecidableEq

/-- `app.background(fn)`'s deferred recovery:
`if err := recover(); err != nil { app.logger.Error(err.(string)) }`.
A string payload is logged; any other payload makes the `err.(string)` type
assertion itself panic inside the deferred function, after `recover` has
already run, so nothing recovers it and the process dies. -/
def background (task : TaskResult) : BackgroundOutcome :=
  match task with
  | .normal => .completed []
  | .panicked (.str s) => .completed [s]
  | .panicked .nonStr => .processCrash

/-! ## Conditional-update helper lemmas -/

/-- A row whose stored version differs from the supplied one (or with another
id) is not selected by the conditional update. -/
theorem movieRowMatches_false_of (m row : Movie)
    (h : row.ID = m.ID → row.Version ≠ m.Version) :
    movieRowMatches m row = false := by
  unfold movieRowMatches
  by_cases hid : row.ID = m.ID
  · simp [hid, h hid]
  · simp [hid]

/-- Users version of `movieRowMatches_false_of`. -/
theorem userRowMatches_false_of (u row : User)
    (h : row.ID = u.ID → row.Version ≠ u.Version) :
    userRowMatches u row = false := by
  unfold userRowMatches
  by_cases hid : row.ID = u.ID
  · simp [hid, h hid]
  · simp [hid]

/-- When no row is selected, the movie conditional update affects zero rows
and signals `ErrEditConflict`. -/
theorem movieUpdate_conflict_of (db : List Movie) (m : Movie)
    (h : ∀ r ∈ db, movieRowMatches m r = false) :
    db.countP (fun r => movieRowMatches m r) = 0 ∧
    MovieModel.Update db m = .error .editConflict := by
  have hc : db.countP (fun r => movieRowMatches m r) = 0 := by
    rw [List.countP_eq_zero]
    intro a ha
    simp [h a ha]
  refine ⟨hc, ?_⟩
  unfold MovieModel.Update
  rw [if_pos hc]

/-- Users version of `movieUpdate_conflict_of`. -/
theorem userUpdate_conflict_of (db : List User) (u : User)
    (h : ∀ r ∈ db, userRowMatches u r = false) :
    db.countP (fun r => userRowMatches u r) = 0 ∧
    UserModel.Update db u = .error .editConflict := by
  have hc : db.countP (fun r => userRowMatches u r) = 0 := by
    rw [List.countP_eq_zero]
    intro a ha
    simp [h a ha]
  refine ⟨hc, ?_⟩
  unfold UserModel.Update
  rw [if_pos hc]

/-- When a row is selected, the movie conditional update succeeds and returns
the incremented version. -/
theorem movieUpdate_ok_of (db : List Movie) (m r : Movie) (hr : r ∈ db)
    (hm : movieRowMatches m r = true) :
    MovieModel.Update db m =
      .ok (db.map (fun row => if movieRowMatches m row then movieRowSet m row else row),
           m.Version + 1) := by
  unfold MovieModel.Update
  rw [if_neg ?hc]
  case hc =>
    have : 0 < db.countP (fun row => movieRowMatches m row) :=
      List.countP_pos_iff.mpr ⟨r, hr, hm⟩
    omega

/-- Users version of `movieUpdate_ok_of`; the unique-email branch does not
fire when no other row carries the same email. -/
theorem userUpdate_ok_of (db : List User) (u r : User) (hr : r ∈ db)
    (hm : userRowMatches u r = true)
    (hemail : db.any (fun row => row.ID != u.ID && row.Email == u.Email) = false) :
    UserModel.Update db u =
      .ok (db.map (fun row => if userRowMatches u row then userRowSet u row else row),
           u.Version + 1) := by
  unfold UserModel.Update
  rw [if_neg ?hc, hemail]
  · simp
  case hc =>
    have : 0 < db.countP (fun row => userRowMatches u row) :=
      List.countP_pos_iff.mpr ⟨r, hr, hm⟩
    omega

/-- Inversion of a successful movie conditional update: a row was selected,
the new table is the pointwise rewrite, and the returned version is the
supplied one plus one. -/
theorem movieUpdate_ok_inv (db : List Movie) (m : Movie) (p : List Movie × Int)
    (h : MovieModel.Update db m = .ok p) :
    (∃ r ∈ db, movieRowMatches m r = true) ∧
    p.1 = db.map (fun row => if movieRowMatches m row then movieRowSet m row else row) ∧
    p.2 = m.Version + 1 := by
  unfold MovieModel.Update at h
  by_cases hc : db.countP (fun r => movieRowMatches m r) = 0
  · rw [if_pos hc] at h
    cases h
  · rw [if_neg hc] at h
    cases h
    refine ⟨?_, rfl, rfl⟩
    exact List.countP_pos_iff.mp (Nat.pos_of_ne_zero hc)

/-- Inversion of a successful user conditional update. -/
theorem userUpdate_ok_inv (db : List User) (u : User) (p : List User × Int)
    (h : UserModel.Update db u = .ok p) :
    (∃ r ∈ db, userRowMatches u r = true) ∧
    p.1 = db.map (fun row => if userRowMatches u row then userRowSet u row else row) ∧
    p.2 = u.Version + 1 := by
  unfold UserModel.Update at h
  by_cases hc : db.countP (fun r => userRowMatches u r) = 0
  · rw [if_pos hc] at h
    cases h
  · rw [if_neg hc] at h
    cases hd : db.any (fun r => r.ID != u.ID && r.Email == u.Email) with
    | true =>
      rw [hd] at h
      simp at h
    | false =>
      rw [hd] at h
      simp only [Bool.false_eq_true, if_false] at h
      cases h
      refine ⟨?_, rfl, rfl⟩
      exact List.countP_pos_iff.mp (Nat.pos_of_ne_zero hc)

/-- Field accounting for the handler's partial patch: a supplied field takes
the supplied value, an absent one keeps the read value, and id / created-at /
version are untouched by the patch itself. -/
theorem applyMoviePatch_fields (input : MovieInput) (movie : Movie) :
    (applyMoviePatch input movie).Title = input.Title.getD movie.Title ∧
    (applyMoviePatch input movie).Year = input.Year.getD movie.Year ∧
    (applyMoviePatch input movie).Runtime = input.Runtime.getD movie.Runtime ∧
    (applyMoviePatch input movie).Genres = input.Genres.getD movie.Genres ∧
    (applyMoviePatch input movie).ID = movie.ID ∧
    (applyMoviePatch input movie).CreatedAt = movie.CreatedAt ∧
    (applyMoviePatch input movie).Version = movie.Version := by
  obtain ⟨t, y, r, g⟩ := input
  cases t <;> cases y <;> cases r <;> cases g <;>
    simp [applyMoviePatch, Option.getD]

/-- When every stored token fails the `GetByToken` row condition, the join is
empty and the lookup fails with `ErrNoRecordFound`. -/
theorem getByToken_error_of_no_match (sha256 : String → List Nat) (now : Int)
    (db : DataDB) (scope token : String)
    (h : ∀ t ∈ db.tokens, tokenRowMatches (sha256 token) scope now t = false) :
    UserModel.GetByToken sha256 now db scope token = .error .noRecordFound := by
  have hfilter : db.tokens.filter (tokenRowMatches (sha256 token) scope now) = [] := by
    rw [List.filter_eq_nil_iff]
    intro a ha
    simp [h a ha]
  unfold UserModel.GetByToken getByTokenRows
  rw [hfilter]
  simp

/-! ## Claim theorems -/

/-- C9: for every `Filter` on which `ValidateFilters` reports no errors, the
sort value is a member of `SortSafeList`, so `sortColumn` finds it in the
scan and returns it with any leading `"-"` stripped; the
`panic("unsafe sort parameter")` branch (embedded as `none`) is unreachable
under the prior safe-list validation. -/
theorem C9_sortColumn_panic_unreachable (v : Validator) (f : Filter)
    (h : (ValidateFilters v f).valid = true) :
    In f.sort f.SortSafeList = true ∧ f.sortColumn = some (trimDash f.sort) := by
  have hnil : (ValidateFilters v f).errors = [] := by
    have := h
    unfold Validator.valid at this
    exact List.isEmpty_iff.mp this
  have hIn : In f.sort f.SortSafeList = true := by
    unfold ValidateFilters at hnil
    exact ((check_errors_nil _ _ _ _).mp hnil).2
  exact ⟨hIn, sortColumnAux_of_mem _ _ hIn⟩

/-- Witness for C9 at the handler's actual safe list with `sort = "-year"`. -/
theorem C9_sortColumn_panic_unreachable_witness :
    In "-year" ["id", "title", "year", "runtime", "-id", "-title", "-year", "-runtime"] = true ∧
    (Filter.mk 1 5 "-year"
      ["id", "title", "year", "runtime", "-id", "-title", "-year", "-runtime"]).sortColumn
      = some (trimDash "-year") :=
  C9_sortColumn_panic_unreachable Validator.new
    (Filter.mk 1 5 "-year"
      ["id", "title", "year", "runtime", "-id", "-title", "-year", "-runtime"])
    (by decide)

/-- C7: `IsAnonymous` is pointer (address) comparison against the single
shared sentinel `AnonymousUser`; the sentinel itself is anonymous, and any
record allocated at a fresh address — in particular one whose field values
all equal the sentinel's zero values — is not. -/
theorem C7_isAnonymous_reference_equality (p : UserPtr) (nextAddr : Nat)
    (u : User) (h : 1 ≤ nextAddr) :
    (User.IsAnonymous p = true ↔ p.addr = AnonymousUser.addr) ∧
    User.IsAnonymous AnonymousUser = true ∧
    User.IsAnonymous (allocUser nextAddr u).1 = false := by
  refine ⟨?_, ?_, ?_⟩
  · simp [User.IsAnonymous]
  · simp [User.IsAnonymous]
  · simp only [User.IsAnonymous, allocUser, AnonymousUser, beq_eq_false_iff_ne,
      ne_eq]
    omega

/-- Witness for C7: a freshly allocated user all of whose fields equal the
zero values of the sentinel's pointee is still not anonymous. -/
theorem C7_isAnonymous_reference_equality_witness :
    (User.IsAnonymous ⟨7, zeroUser⟩ = true ↔ (7 : Nat) = AnonymousUser.addr) ∧
    User.IsAnonymous AnonymousUser = true ∧
    User.IsAnonymous (allocUser 1 zeroUser).1 = false :=
  C7_isAnonymous_reference_equality ⟨7, zeroUser⟩ 1 zeroUser (by decide)

/-- C8: the claim that every panic payload is caught at the task boundary
fails on the code.  `app.background`'s recovery handler runs
`app.logger.Error(err.(string))`: a string payload is indeed caught and only
logged, but any non-string payload makes the type assertion itself panic
inside the deferred function — after `recover` has already run — so the
panic escapes the goroutine and kills the process. -/
theorem C8_background_nonstring_panic_crashes :
    background (.panicked (.str "smtp: connection refused")) =
      .completed ["smtp: connection refused"] ∧
    background (.panicked .nonStr) = .processCrash :=
  ⟨rfl, rfl⟩

/-- C4: a permission-gated request whose context user is the anonymous
sentinel is rejected with 401, and one whose user is unactivated with 403,
in both cases with an empty store-query log: the permission store is never
queried for such identities, for any required permission code. -/
theorem C4_no_permission_lookup_before_activation_gate
    (pdb : List (Int × String)) (permission : String) (user : UserPtr)
    (next : Unit → MWResult × List StoreQuery) :
    (User.IsAnonymous user = true →
      RequirePermission pdb permission user next = (.httpError 401, [])) ∧
    (User.IsAnonymous user = false → user.val.Activated = false →
      RequirePermission pdb permission user next = (.httpError 403, [])) := by
  constructor
  · intro h
    unfold RequirePermission RequireActivatedUser
    simp [h]
  · intro h1 h2
    unfold RequirePermission RequireActivatedUser
    simp [h1, h2]

/-- Witness for C4: the anonymous sentinel and a concrete unactivated user,
against a grant table that would have granted the permission. -/
theorem C4_no_permission_lookup_before_activation_gate_witness :
    RequirePermission [(0, "movies:read"), (3, "movies:read")] "movies:read"
      AnonymousUser (fun _ => (.handled 200, [])) = (.httpError 401, []) ∧
    RequirePermission [(0, "movies:read"), (3, "movies:read")] "movies:read"
      ⟨9, { zeroUser with ID := 3 }⟩ (fun _ => (.handled 200, []))
      = (.httpError 403, []) :=
  ⟨(C4_no_permission_lookup_before_activation_gate _ _ _ _).1 (by decide),
   (C4_no_permission_lookup_before_activation_gate _ _ _ _).2 (by decide) rfl⟩

/-- C5: the `Authenticate` middleware resolves every inbound request: an
absent `Authorization` header attaches the anonymous sentinel and continues;
a header that is not exactly two space-separated parts led by `"Bearer"`, or
whose token fails the plaintext shape check, is a 401 with the
`WWW-Authenticate: Bearer` response header; a well-formed token with no
matching record is a 401; a valid token attaches the freshly resolved user,
which is exactly the identity the downstream authorization gate receives. -/
theorem C5_authenticate_resolution (sha256 : String → List Nat) (now : Int)
    (db : DataDB) (shapeOk : String → Bool) (nextAddr : Nat)
    (authHeader : String) (pdb : List (Int × String)) (permission : String)
    (next : Unit → MWResult × List StoreQuery) :
    (authHeader = "" →
      Authenticate sha256 now db shapeOk nextAddr authHeader
        = ⟨none, false, some AnonymousUser⟩) ∧
    (authHeader ≠ "" →
      ((splitOnSpace authHeader).length == 2 &&
        (splitOnSpace authHeader).headD "" == "Bearer") = false →
      Authenticate sha256 now db shapeOk nextAddr authHeader
        = ⟨some 401, true, none⟩) ∧
    (authHeader ≠ "" →
      ((splitOnSpace authHeader).length == 2 &&
        (splitOnSpace authHeader).headD "" == "Bearer") = true →
      shapeOk ((splitOnSpace authHeader).getD 1 "") = false →
      Authenticate sha256 now db shapeOk nextAddr authHeader
        = ⟨some 401, true, none⟩) ∧
    (authHeader ≠ "" →
      ((splitOnSpace authHeader).length == 2 &&
        (splitOnSpace authHeader).headD "" == "Bearer") = true →
      shapeOk ((splitOnSpace authHeader).getD 1 "") = true →
      UserModel.GetByToken sha256 now db ScopeAuth
        ((splitOnSpace authHeader).getD 1 "") = .error .noRecordFound →
      Authenticate sha256 now db shapeOk nextAddr authHeader
        = ⟨some 401, true, none⟩) ∧
    (∀ u : User, authHeader ≠ "" →
      ((splitOnSpace authHeader).length == 2 &&
        (splitOnSpace authHeader).headD "" == "Bearer") = true →
      shapeOk ((splitOnSpace authHeader).getD 1 "") = true →
      UserModel.GetByToken sha256 now db ScopeAuth
        ((splitOnSpace authHeader).getD 1 "") = .ok u →
      Authenticate sha256 now db shapeOk nextAddr authHeader
        = ⟨none, false, some ⟨nextAddr, u⟩⟩ ∧
      servePermissionGated sha256 now db shapeOk pdb permission nextAddr
        authHeader next = RequirePermission pdb permission ⟨nextAddr, u⟩ next) := by
  refine ⟨?_, ?_, ?_, ?_, ?_⟩
  · intro h
    unfold Authenticate
    simp [h]
  · intro h hparts
    have hne : (authHeader == "") = false := beq_eq_false_iff_ne.mpr h
    unfold Authenticate
    rw [hne, hparts]
    simp
  · intro h hparts hshape
    have hne : (authHeader == "") = false := beq_eq_false_iff_ne.mpr h
    unfold Authenticate
    rw [hne, hparts, hshape]
    simp
  · intro h hparts hshape hget
    have hne : (authHeader == "") = false := beq_eq_false_iff_ne.mpr h
    unfold Authenticate
    rw [hne, hparts, hshape, hget]
    simp
  · intro u h hparts hshape hget
    have hne : (authHeader == "") = false := beq_eq_false_iff_ne.mpr h
    have hauth : Authenticate sha256 now db shapeOk nextAddr authHeader
        = ⟨none, false, some ⟨nextAddr, u⟩⟩ := by
      unfold Authenticate
      rw [hne, hparts, hshape, hget]
      simp [allocUser]
    refine ⟨hauth, ?_⟩
    unfold servePermissionGated
    rw [hauth]

/-- Witness for C5: all five resolution cases at concrete inputs, against a
store holding one authentication-scope token for one user. -/
theorem C5_authenticate_resolution_witness :
    (Authenticate (fun s => [s.length]) 0
        ⟨[⟨1, "Ann", "a@x.com", [], true, 1, 0⟩], [⟨[3], 1, "authentication", 10⟩]⟩
        (fun s => s != "") 5 "" = ⟨none, false, some AnonymousUser⟩) ∧
    (Authenticate (fun s => [s.length]) 0
        ⟨[⟨1, "Ann", "a@x.com", [], true, 1, 0⟩], [⟨[3], 1, "authentication", 10⟩]⟩
        (fun s => s != "") 5 "Token abc" = ⟨some 401, true, none⟩) ∧
    (Authenticate (fun s => [s.length]) 0
        ⟨[⟨1, "Ann", "a@x.com", [], true, 1, 0⟩], [⟨[3], 1, "authentication", 10⟩]⟩
        (fun s => s != "") 5 "Bearer " = ⟨some 401, true, none⟩) ∧
    (Authenticate (fun s => [s.length]) 0
        ⟨[⟨1, "Ann", "a@x.com", [], true, 1, 0⟩], [⟨[3], 1, "authentication", 10⟩]⟩
        (fun s => s != "") 5 "Bearer zzzz" = ⟨some 401, true, none⟩) ∧
    (Authenticate (fun s => [s.length]) 0
        ⟨[⟨1, "Ann", "a@x.com", [], true, 1, 0⟩], [⟨[3], 1, "authentication", 10⟩]⟩
        (fun s => s != "") 5 "Bearer tok"
        = ⟨none, false, some ⟨5, ⟨1, "Ann", "a@x.com", [], true, 1, 0⟩⟩⟩) := by
  refine ⟨?_, ?_, ?_, ?_, ?_⟩
  · exact (C5_authenticate_resolution _ _ _ _ _ _ [] "movies:read"
      (fun _ => (.handled 200, []))).1 rfl
  · exact (C5_authenticate_resolution _ _ _ _ _ _ [] "movies:read"
      (fun _ => (.handled 200, []))).2.1 (by decide) (by decide)
  · exact (C5_authenticate_resolution _ _ _ _ _ _ [] "movies:read"
      (fun _ => (.handled 200, []))).2.2.1 (by decide) (by decide) (by decide)
  · exact (C5_authenticate_resolution _ _ _ _ _ _ [] "movies:read"
      (fun _ => (.handled 200, []))).2.2.2.1 (by decide) (by decide) (by decide)
      (by rfl)
  · exact ((C5_authenticate_resolution _ _ _ _ _ _ [] "movies:read"
      (fun _ => (.handled 200, []))).2.2.2.2 ⟨1, "Ann", "a@x.com", [], true, 1, 0⟩
      (by decide) (by decide) (by decide) (by rfl)).1

/-- C1: a mutation of a versioned resource — movie or identity — submitted
with a last-observed version no stored row still carries affects zero rows,
fails with `ErrEditConflict`, and the update handlers map that error to
HTTP 409 leaving the store untouched (a single attempt, no retry). -/
theorem C1_stale_version_yields_conflict_409
    (udb : List User) (usr : User)
    (h1 : ∀ row ∈ udb, row.ID = usr.ID → row.Version ≠ usr.Version)
    (nowYear : Int) (dbRead dbWrite : List Movie) (id : Int)
    (input : MovieInput) (mv : Movie)
    (h2 : MovieModel.Get dbRead id = .ok mv)
    (h3 : (ValidateMovie Validator.new nowYear (applyMoviePatch input mv)).valid = true)
    (h4 : ∀ row ∈ dbWrite, row.ID = (applyMoviePatch input mv).ID →
      row.Version ≠ (applyMoviePatch input mv).Version)
    (sha256 : String → List Nat) (now : Int) (shapeOk : String → Bool)
    (dbRd dbWd : DataDB) (token : String) (au : User)
    (h5 : shapeOk token = true)
    (h6 : UserModel.GetByToken sha256 now dbRd ScopeActivation token = .ok au)
    (h7 : ∀ row ∈ dbWd.users, row.ID = au.ID → row.Version ≠ au.Version) :
    (dbWrite.countP (fun r => movieRowMatches (applyMoviePatch input mv) r) = 0 ∧
      MovieModel.Update dbWrite (applyMoviePatch input mv) = .error .editConflict) ∧
    (udb.countP (fun r => userRowMatches usr r) = 0 ∧
      UserModel.Update udb usr = .error .editConflict) ∧
    updateMovieHandler nowYear dbRead dbWrite id input = ⟨409, none, dbWrite⟩ ∧
    activateUserHandler sha256 now shapeOk dbRd dbWd token = ⟨409, dbWd⟩ := by
  have hmfalse : ∀ row ∈ dbWrite, movieRowMatches (applyMoviePatch input mv) row = false :=
    fun row hrow => movieRowMatches_false_of _ row (h4 row hrow)
  have hmovie := movieUpdate_conflict_of dbWrite (applyMoviePatch input mv) hmfalse
  have hufalse : ∀ row ∈ udb, userRowMatches usr row = false :=
    fun row hrow => userRowMatches_false_of usr row (h1 row hrow)
  have huser := userUpdate_conflict_of udb usr hufalse
  have haufalse : ∀ row ∈ dbWd.users,
      userRowMatches { au with Activated := true } row = false :=
    fun row hrow => userRowMatches_false_of _ row (h7 row hrow)
  have hau := userUpdate_conflict_of dbWd.users { au with Activated := true } haufalse
  refine ⟨hmovie, huser, ?_, ?_⟩
  · unfold updateMovieHandler
    rw [h2]
    simp [h3, hmovie.2]
  · unfold activateUserHandler
    rw [h5, h6]
    simp [hau.2]

/-- Witness for C1: a movies table and a users table whose single rows moved
to version 4 while the callers still hold version 3. -/
theorem C1_stale_version_yields_conflict_409_witness :
    (([⟨1, "Dune", 2021, 155, ["sci-fi"], 0, 4⟩] :
        List Movie).countP
      (fun r => movieRowMatches
        (applyMoviePatch ⟨some "Dune II", none, none, none⟩
          ⟨1, "Dune", 2021, 155, ["sci-fi"], 0, 3⟩) r) = 0 ∧
      MovieModel.Update [⟨1, "Dune", 2021, 155, ["sci-fi"], 0, 4⟩]
        (applyMoviePatch ⟨some "Dune II", none, none, none⟩
          ⟨1, "Dune", 2021, 155, ["sci-fi"], 0, 3⟩) = .error .editConflict) ∧
    (([⟨1, "Ann", "a@x.com", [], false, 4, 0⟩] : List User).countP
      (fun r => userRowMatches ⟨1, "Ann", "a@x.com", [], true, 3, 0⟩ r) = 0 ∧
      UserModel.Update [⟨1, "Ann", "a@x.com", [], false, 4, 0⟩]
        ⟨1, "Ann", "a@x.com", [], true, 3, 0⟩ = .error .editConflict) ∧
    updateMovieHandler 2024 [⟨1, "Dune", 2021, 155, ["sci-fi"], 0, 3⟩]
      [⟨1, "Dune", 2021, 155, ["sci-fi"], 0, 4⟩] 1
      ⟨some "Dune II", none, none, none⟩
      = ⟨409, none, [⟨1, "Dune", 2021, 155, ["sci-fi"], 0, 4⟩]⟩ ∧
    activateUserHandler (fun s => [s.length]) 0 (fun s => s != "")
      ⟨[⟨1, "Ann", "a@x.com", [], false, 3, 0⟩], [⟨[3], 1, "activation", 10⟩]⟩
      ⟨[⟨1, "Ann", "a@x.com", [], false, 4, 0⟩], [⟨[3], 1, "activation", 10⟩]⟩
      "tok"
      = ⟨409, ⟨[⟨1, "Ann", "a@x.com", [], false, 4, 0⟩],
               [⟨[3], 1, "activation", 10⟩]⟩⟩ :=
  C1_stale_version_yields_conflict_409
    [⟨1, "Ann", "a@x.com", [], false, 4, 0⟩]
    ⟨1, "Ann", "a@x.com", [], true, 3, 0⟩ (by decide)
    2024 [⟨1, "Dune", 2021, 155, ["sci-fi"], 0, 3⟩]
    [⟨1, "Dune", 2021, 155, ["sci-fi"], 0, 4⟩] 1
    ⟨some "Dune II", none, none, none⟩
    ⟨1, "Dune", 2021, 155, ["sci-fi"], 0, 3⟩ (by rfl) (by decide) (by decide)
    (fun s => [s.length]) 0 (fun s => s != "")
    ⟨[⟨1, "Ann", "a@x.com", [], false, 3, 0⟩], [⟨[3], 1, "activation", 10⟩]⟩
    ⟨[⟨1, "Ann", "a@x.com", [], false, 4, 0⟩], [⟨[3], 1, "activation", 10⟩]⟩
    "tok" ⟨1, "Ann", "a@x.com", [], false, 3, 0⟩
    (by decide) (by rfl) (by decide)

/-- C2: a successful conditional update of a resource stored at version `v`
and submitted with version `v` replaces the selected row by one carrying the
new field values together with version exactly `v + 1` (one atomic row
write), leaves unselected rows unchanged, and returns `v + 1` to the caller
— uniformly for movies and identities. -/
theorem C2_successful_mutation_increments_version
    (db : List Movie) (m r : Movie) (hr : r ∈ db) (hid : r.ID = m.ID)
    (hv : r.Version = m.Version)
    (udb : List User) (usr ur : User) (hur : ur ∈ udb) (huid : ur.ID = usr.ID)
    (huv : ur.Version = usr.Version)
    (hemail : udb.any (fun row => row.ID != usr.ID && row.Email == usr.Email) = false) :
    (∃ db', MovieModel.Update db m = .ok (db', m.Version + 1) ∧
      movieRowSet m r ∈ db' ∧
      movieRowSet m r =
        ⟨m.ID, m.Title, m.Year, m.Runtime, m.Genres, r.CreatedAt, m.Version + 1⟩ ∧
      ∀ row ∈ db, movieRowMatches m row = false → row ∈ db') ∧
    (∃ udb', UserModel.Update udb usr = .ok (udb', usr.Version + 1) ∧
      userRowSet usr ur ∈ udb' ∧
      userRowSet usr ur =
        ⟨usr.ID, usr.Name, usr.Email, usr.PasswordHash, usr.Activated,
         usr.Version + 1, ur.CreatedAt⟩ ∧
      ∀ row ∈ udb, userRowMatches usr row = false → row ∈ udb') := by
  have hm : movieRowMatches m r = true := by
    simp [movieRowMatches, hid, hv]
  have hu : userRowMatches usr ur = true := by
    simp [userRowMatches, huid, huv]
  constructor
  · refine ⟨_, movieUpdate_ok_of db m r hr hm, ?_, ?_, ?_⟩
    · exact List.mem_map.mpr ⟨r, hr, by rw [hm]; simp⟩
    · unfold movieRowSet
      rw [hid, hv]
    · intro row hrow hfalse
      exact List.mem_map.mpr ⟨row, hrow, by rw [hfalse]; simp⟩
  · refine ⟨_, userUpdate_ok_of udb usr ur hur hu hemail, ?_, ?_, ?_⟩
    · exact List.mem_map.mpr ⟨ur, hur, by rw [hu]; simp⟩
    · unfold userRowSet
      rw [huid, huv]
    · intro row hrow hfalse
      exact List.mem_map.mpr ⟨row, hrow, by rw [hfalse]; simp⟩

/-- Witness for C2: one movie row and one user row, both at version 3,
mutated with supplied version 3. -/
theorem C2_successful_mutation_increments_version_witness :
    (∃ db', MovieModel.Update [⟨1, "Dune", 2021, 155, ["sci-fi"], 7, 3⟩]
        ⟨1, "Dune II", 2024, 166, ["sci-fi", "epic"], 0, 3⟩ = .ok (db', 3 + 1) ∧
      movieRowSet ⟨1, "Dune II", 2024, 166, ["sci-fi", "epic"], 0, 3⟩
        ⟨1, "Dune", 2021, 155, ["sci-fi"], 7, 3⟩ ∈ db' ∧
      movieRowSet ⟨1, "Dune II", 2024, 166, ["sci-fi", "epic"], 0, 3⟩
        ⟨1, "Dune", 2021, 155, ["sci-fi"], 7, 3⟩ =
        ⟨1, "Dune II", 2024, 166, ["sci-fi", "epic"], 7, 3 + 1⟩ ∧
      ∀ row ∈ [(⟨1, "Dune", 2021, 155, ["sci-fi"], 7, 3⟩ : Movie)],
        movieRowMatches ⟨1, "Dune II", 2024, 166, ["sci-fi", "epic"], 0, 3⟩ row = false →
        row ∈ db') ∧
    (∃ udb', UserModel.Update [⟨1, "Ann", "a@x.com", [2], false, 3, 7⟩]
        ⟨1, "Ann", "a@x.com", [2], true, 3, 0⟩ = .ok (udb', 3 + 1) ∧
      userRowSet ⟨1, "Ann", "a@x.com", [2], true, 3, 0⟩
        ⟨1, "Ann", "a@x.com", [2], false, 3, 7⟩ ∈ udb' ∧
      userRowSet ⟨1, "Ann", "a@x.com", [2], true, 3, 0⟩
        ⟨1, "Ann", "a@x.com", [2], false, 3, 7⟩ =
        ⟨1, "Ann", "a@x.com", [2], true, 3 + 1, 7⟩ ∧
      ∀ row ∈ [(⟨1, "Ann", "a@x.com", [2], false, 3, 7⟩ : User)],
        userRowMatches ⟨1, "Ann", "a@x.com", [2], true, 3, 0⟩ row = false →
        row ∈ udb') :=
  C2_successful_mutation_increments_version
    [⟨1, "Dune", 2021, 155, ["sci-fi"], 7, 3⟩]
    ⟨1, "Dune II", 2024, 166, ["sci-fi", "epic"], 0, 3⟩
    ⟨1, "Dune", 2021, 155, ["sci-fi"], 7, 3⟩ (by decide) rfl rfl
    [⟨1, "Ann", "a@x.com", [2], false, 3, 7⟩]
    ⟨1, "Ann", "a@x.com", [2], true, 3, 0⟩
    ⟨1, "Ann", "a@x.com", [2], false, 3, 7⟩ (by decide) rfl rfl (by decide)

/-- C3: `GetByToken` fails with the single error `ErrNoRecordFound` whenever
no stored token has digest equal to the SHA-256 of the supplied plaintext,
the requested scope, and an expiry strictly in the future — one error value
covering altered plaintext, expired token and wrong scope alike; when such a
record exists (with an owning user row, digests mapping to one owner), it
returns the owning identity. -/
theorem C3_getByToken_uniform_failure (sha256 : String → List Nat) (now : Int)
    (db : DataDB) (scope token : String) :
    ((∀ t ∈ db.tokens, ¬(t.hash = sha256 token ∧ t.scope = scope ∧ now < t.expiry)) →
      UserModel.GetByToken sha256 now db scope token = .error .noRecordFound) ∧
    (∀ t ∈ db.tokens, t.hash = sha256 token → t.scope = scope → now < t.expiry →
      (∀ t' ∈ db.tokens, t'.hash = sha256 token → t'.scope = scope →
        now < t'.expiry → t'.userID = t.userID) →
      (∃ u ∈ db.users, u.ID = t.userID) →
      ∃ u', UserModel.GetByToken sha256 now db scope token = .ok u' ∧
        u' ∈ db.users ∧ u'.ID = t.userID) := by
  constructor
  · intro h
    have hfilter : db.tokens.filter (tokenRowMatches (sha256 token) scope now) = [] := by
      rw [List.filter_eq_nil_iff]
      intro a ha
      have hna := h a ha
      unfold tokenRowMatches
      simp only [Bool.and_eq_true, beq_iff_eq, decide_eq_true_eq, not_and] at hna ⊢
      tauto
    unfold UserModel.GetByToken getByTokenRows
    rw [hfilter]
    simp
  · intro t ht hh hs he huniq hex
    obtain ⟨u, hu, huid⟩ := hex
    have hmem : u ∈ getByTokenRows sha256 now db scope token := by
      unfold getByTokenRows
      refine List.mem_flatMap.mpr ⟨t, ?_, ?_⟩
      · refine List.mem_filter.mpr ⟨ht, ?_⟩
        unfold tokenRowMatches
        simp [hh, hs, he]
      · exact List.mem_filter.mpr ⟨hu, by simp [huid]⟩
    cases hrv : getByTokenRows sha256 now db scope token with
    | nil =>
      rw [hrv] at hmem
      cases hmem
    | cons w rest =>
      have hw : w ∈ getByTokenRows sha256 now db scope token := by
        rw [hrv]
        exact List.mem_cons_self w rest
      unfold getByTokenRows at hw
      obtain ⟨t0, ht0, hwmem⟩ := List.mem_flatMap.mp hw
      obtain ⟨ht0mem, ht0match⟩ := List.mem_filter.mp ht0
      obtain ⟨hwusers, hwid⟩ := List.mem_filter.mp hwmem
      unfold tokenRowMatches at ht0match
      simp only [Bool.and_eq_true, beq_iff_eq, decide_eq_true_eq] at ht0match
      have ht0own : t0.userID = t.userID :=
        huniq t0 ht0mem ht0match.1.1 ht0match.1.2 ht0match.2
      refine ⟨w, ?_, hwusers, ?_⟩
      · unfold UserModel.GetByToken
        rw [hrv]
      · have : w.ID = t0.userID := by simpa using hwid
        rw [this, ht0own]

/-- Witness for C3: a store with one activation token for user 1; an altered
plaintext, an expired probe, and a wrong-scope probe all yield
`ErrNoRecordFound`, while the matching lookup returns user 1. -/
theorem C3_getByToken_uniform_failure_witness :
    (UserModel.GetByToken (fun s => [s.length]) 0
      ⟨[⟨1, "Ann", "a@x.com", [], false, 1, 0⟩], [⟨[3], 1, "activation", 10⟩]⟩
      "activation" "differ" = .error .noRecordFound) ∧
    (UserModel.GetByToken (fun s => [s.length]) 99
      ⟨[⟨1, "Ann", "a@x.com", [], false, 1, 0⟩], [⟨[3], 1, "activation", 10⟩]⟩
      "activation" "tok" = .error .noRecordFound) ∧
    (UserModel.GetByToken (fun s => [s.length]) 0
      ⟨[⟨1, "Ann", "a@x.com", [], false, 1, 0⟩], [⟨[3], 1, "activation", 10⟩]⟩
      "authentication" "tok" = .error .noRecordFound) ∧
    (∃ u', UserModel.GetByToken (fun s => [s.length]) 0
      ⟨[⟨1, "Ann", "a@x.com", [], false, 1, 0⟩], [⟨[3], 1, "activation", 10⟩]⟩
      "activation" "tok" = .ok u' ∧
      u' ∈ [(⟨1, "Ann", "a@x.com", [], false, 1, 0⟩ : User)] ∧ u'.ID = 1) := by
  refine ⟨?_, ?_, ?_, ?_⟩
  · exact (C3_getByToken_uniform_failure (fun s => [s.length]) 0
      ⟨[⟨1, "Ann", "a@x.com", [], false, 1, 0⟩], [⟨[3], 1, "activation", 10⟩]⟩
      "activation" "differ").1 (by decide)
  · exact (C3_getByToken_uniform_failure (fun s => [s.length]) 99
      ⟨[⟨1, "Ann", "a@x.com", [], false, 1, 0⟩], [⟨[3], 1, "activation", 10⟩]⟩
      "activation" "tok").1 (by decide)
  · exact (C3_getByToken_uniform_failure (fun s => [s.length]) 0
      ⟨[⟨1, "Ann", "a@x.com", [], false, 1, 0⟩], [⟨[3], 1, "activation", 10⟩]⟩
      "authentication" "tok").1 (by decide)
  · exact (C3_getByToken_uniform_failure (fun s => [s.length]) 0
      ⟨[⟨1, "Ann", "a@x.com", [], false, 1, 0⟩], [⟨[3], 1, "activation", 10⟩]⟩
      "activation" "tok").2 ⟨[3], 1, "activation", 10⟩ (by decide) (by decide)
      (by decide) (by decide) (by decide) ⟨⟨1, "Ann", "a@x.com", [], false, 1, 0⟩,
        by decide, by decide⟩

/-- C6: an activation that returns 200 resolved some identity through an
activation-scope token, left that identity's row activated, deleted every
activation-scope token it owned, and afterwards every plaintext whose digest
pointed (only) at that identity's activation tokens fails validation with
`ErrNoRecordFound`, at any probe time. -/
theorem C6_activation_revokes_activation_tokens (sha256 : String → List Nat)
    (now : Int) (shapeOk : String → Bool) (dbRead dbWrite : DataDB)
    (token : String) (db' : DataDB)
    (h : activateUserHandler sha256 now shapeOk dbRead dbWrite token = ⟨200, db'⟩) :
    ∃ user, UserModel.GetByToken sha256 now dbRead ScopeActivation token = .ok user ∧
      (∃ u' ∈ db'.users, u'.ID = user.ID ∧ u'.Activated = true) ∧
      (∀ t ∈ db'.tokens, ¬(t.scope = ScopeActivation ∧ t.userID = user.ID)) ∧
      (∀ p : String,
        (∀ t ∈ dbWrite.tokens, t.hash = sha256 p → t.scope = ScopeActivation →
          t.userID = user.ID) →
        ∀ now2 : Int,
          UserModel.GetByToken sha256 now2 db' ScopeActivation p
            = .error .noRecordFound) := by
  unfold activateUserHandler at h
  cases hsh : shapeOk token with
  | false =>
    rw [hsh] at h
    simp at h
  | true =>
    rw [hsh] at h
    simp only [Bool.not_true, Bool.false_eq_true, if_false] at h
    cases hget : UserModel.GetByToken sha256 now dbRead ScopeActivation token with
    | error e =>
      cases e <;> rw [hget] at h <;> simp at h
    | ok user =>
      rw [hget] at h
      simp only [] at h
      cases hupd : UserModel.Update dbWrite.users { user with Activated := true } with
      | error e =>
        cases e <;> rw [hupd] at h <;> simp at h
      | ok q =>
        obtain ⟨users', ver⟩ := q
        rw [hupd] at h
        simp only [ActivateResult.mk.injEq, true_and] at h
        obtain ⟨hinv, hmap, _⟩ := userUpdate_ok_inv _ _ _ hupd
        simp only [] at hmap
        obtain ⟨r, hr, hmatch⟩ := hinv
        have hrid : r.ID = user.ID ∧ r.Version = user.Version := by
          unfold userRowMatches at hmatch
          simpa using hmatch
        refine ⟨user, rfl, ?_, ?_, ?_⟩
        · refine ⟨userRowSet { user with Activated := true } r, ?_, ?_, ?_⟩
          · rw [← h]
            simp only []
            rw [hmap]
            exact List.mem_map.mpr ⟨r, hr, by rw [hmatch]; simp⟩
          · simpa [userRowSet] using hrid.1
          · simp [userRowSet]
        · intro t ht
          rw [← h] at ht
          simp only [] at ht
          have := (List.mem_filter.mp ht).2
          simp only [Bool.not_eq_true', Bool.and_eq_false_iff, beq_eq_false_iff_ne,
            ne_eq] at this
          rcases this with hsc | hid
          · exact fun hc => hsc hc.1
          · exact fun hc => hid hc.2
        · intro p hp now2
          apply getByToken_error_of_no_match
          intro t ht
          rw [← h] at ht
          simp only [] at ht
          obtain ⟨htw, hsurv⟩ := List.mem_filter.mp ht
          cases hm : tokenRowMatches (sha256 p) ScopeActivation now2 t with
          | false => rfl
          | true =>
            exfalso
            unfold tokenRowMatches at hm
            simp only [Bool.and_eq_true, beq_iff_eq, decide_eq_true_eq] at hm
            have huid := hp t htw hm.1.1 hm.1.2
            simp only [Bool.not_eq_true', Bool.and_eq_false_iff,
              beq_eq_false_iff_ne, ne_eq] at hsurv
            rcases hsurv with hsc | hid
            · exact hsc hm.1.2
            · exact hid huid

/-- Witness for C6: activating user 1 via its single activation token leaves
the row activated at version 4, an empty token table, and a failing re-probe
of the original plaintext. -/
theorem C6_activation_revokes_activation_tokens_witness :
    ∃ user, UserModel.GetByToken (fun s => [s.length]) 0
        ⟨[⟨1, "Ann", "a@x.com", [], false, 3, 0⟩], [⟨[3], 1, "activation", 10⟩]⟩
        ScopeActivation "tok" = .ok user ∧
      (∃ u' ∈ (⟨[⟨1, "Ann", "a@x.com", [], true, 4, 0⟩], []⟩ : DataDB).users,
        u'.ID = user.ID ∧ u'.Activated = true) ∧
      (∀ t ∈ (⟨[⟨1, "Ann", "a@x.com", [], true, 4, 0⟩], []⟩ : DataDB).tokens,
        ¬(t.scope = ScopeActivation ∧ t.userID = user.ID)) ∧
      (∀ p : String,
        (∀ t ∈ [(⟨[3], 1, "activation", 10⟩ : Token)], t.hash = (fun s => [s.length]) p →
          t.scope = ScopeActivation → t.userID = user.ID) →
        ∀ now2 : Int,
          UserModel.GetByToken (fun s => [s.length]) now2
            ⟨[⟨1, "Ann", "a@x.com", [], true, 4, 0⟩], []⟩ ScopeActivation p
            = .error .noRecordFound) :=
  C6_activation_revokes_activation_tokens (fun s => [s.length]) 0 (fun s => s != "")
    ⟨[⟨1, "Ann", "a@x.com", [], false, 3, 0⟩], [⟨[3], 1, "activation", 10⟩]⟩
    ⟨[⟨1, "Ann", "a@x.com", [], false, 3, 0⟩], [⟨[3], 1, "activation", 10⟩]⟩
    "tok" ⟨[⟨1, "Ann", "a@x.com", [], true, 4, 0⟩], []⟩ (by rfl)

/-- C10: a successful partial movie update returns (and stores) a movie in
which every field absent from the request body keeps exactly the value read
from the store before the update, every supplied field takes the supplied
value, id and creation instant are untouched, the version is the read
version plus one, and rows not selected by the conditional update are
unchanged. -/
theorem C10_partial_update_frame (nowYear : Int) (dbRead dbWrite : List Movie)
    (id : Int) (input : MovieInput) (old : Movie) (res : MovieHandlerResult)
    (hget : MovieModel.Get dbRead id = .ok old)
    (hrun : updateMovieHandler nowYear dbRead dbWrite id input = res)
    (hsucc : res.status = 201) :
    ∃ m', res.movie = some m' ∧
      m'.Title = input.Title.getD old.Title ∧
      m'.Year = input.Year.getD old.Year ∧
      m'.Runtime = input.Runtime.getD old.Runtime ∧
      m'.Genres = input.Genres.getD old.Genres ∧
      m'.ID = old.ID ∧ m'.CreatedAt = old.CreatedAt ∧
      m'.Version = old.Version + 1 ∧
      ∀ row ∈ dbWrite, movieRowMatches (applyMoviePatch input old) row = false →
        row ∈ res.db := by
  unfold updateMovieHandler at hrun
  rw [hget] at hrun
  simp only [] at hrun
  cases hval : (ValidateMovie Validator.new nowYear (applyMoviePatch input old)).valid with
  | false =>
    rw [hval] at hrun
    simp only [Bool.not_false, if_true] at hrun
    rw [← hrun] at hsucc
    simp at hsucc
  | true =>
    rw [hval] at hrun
    simp only [Bool.not_true, Bool.false_eq_true, if_false] at hrun
    cases hupd : MovieModel.Update dbWrite (applyMoviePatch input old) with
    | error e =>
      cases e <;> rw [hupd] at hrun <;> rw [← hrun] at hsucc <;> simp at hsucc
    | ok q =>
      obtain ⟨db'', ver⟩ := q
      rw [hupd] at hrun
      simp only [] at hrun
      obtain ⟨_, hmap, hver⟩ := movieUpdate_ok_inv _ _ _ hupd
      simp only [] at hmap hver
      obtain ⟨hT, hY, hR, hG, hI, hC, hV⟩ := applyMoviePatch_fields input old
      refine ⟨{ applyMoviePatch input old with Version := ver }, ?_, ?_, ?_, ?_, ?_,
        ?_, ?_, ?_, ?_⟩
      · rw [← hrun]
      · simpa using hT
      · simpa using hY
      · simpa using hR
      · simpa using hG
      · simpa using hI
      · simpa using hC
      · simp only []
        rw [hver, hV]
      · intro row hrow hfalse
        rw [← hrun]
        simp only []
        rw [hmap]
        exact List.mem_map.mpr ⟨row, hrow, by rw [hfalse]; simp⟩

/-- Witness for C10: patching only the year of a stored movie keeps title,
runtime and genres, bumps the version from 3 to 4, and returns year 2024. -/
theorem C10_partial_update_frame_witness :
    ∃ m', (some (⟨1, "Dune", 2024, 155, ["sci-fi"], 7, 4⟩ : Movie)) = some m' ∧
      m'.Title = (Option.none.getD "Dune") ∧
      m'.Year = ((some (2024 : Int)).getD 2021) ∧
      m'.Runtime = (Option.none.getD (155 : Int)) ∧
      m'.Genres = (Option.none.getD ["sci-fi"]) ∧
      m'.ID = (1 : Int) ∧ m'.CreatedAt = (7 : Int) ∧
      m'.Version = (3 : Int) + 1 ∧
      ∀ row ∈ [(⟨1, "Dune", 2021, 155, ["sci-fi"], 7, 3⟩ : Movie)],
        movieRowMatches
          (applyMoviePatch ⟨none, some 2024, none, none⟩
            ⟨1, "Dune", 2021, 155, ["sci-fi"], 7, 3⟩) row = false →
        row ∈ [(⟨1, "Dune", 2024, 155, ["sci-fi"], 7, 4⟩ : Movie)] := by
  have h := C10_partial_update_frame 2024
    [⟨1, "Dune", 2021, 155, ["sci-fi"], 7, 3⟩]
    [⟨1, "Dune", 2021, 155, ["sci-fi"], 7, 3⟩] 1
    ⟨none, some 2024, none, none⟩
    ⟨1, "Dune", 2021, 155, ["sci-fi"], 7, 3⟩
    ⟨201, some ⟨1, "Dune", 2024, 155, ["sci-fi"], 7, 4⟩,
      [⟨1, "Dune", 2024, 155, ["sci-fi"], 7, 4⟩]⟩
    (by rfl) (by rfl) rfl
  simpa using h

end MoviesAPI
